import Mathlib

/-!
Formal embedding of the Scene/Panel Continuity & Refinement Engine of the
AI-Story-To-Movie pipeline (sources: `src/01_cinematic_preroll.py` and
`src/05_grid_quality_gate.py`), together with theorems settling the
specification claims about it.
-/

namespace StoryToMovie

/-- A panel record, as produced by the scene refinement stage
(`SCENE_SCHEMA` in `01_cinematic_preroll.py`).  `motion_prompt_original`
is the extra key added by `apply_reversal_pass`; it is absent (`none`)
until that pass stores the pre-swap motion prompt there. -/
structure Panel where
  panel_index : Nat
  visual_start : String
  visual_end : String
  motion_prompt : String
  motion_prompt_reversed : String
  is_reversed : Bool
  lights_and_camera : String
  dialogue : String
  caption : String
  duration : Nat
  references : List String
  motion_prompt_original : Option String
deriving DecidableEq, Repr

/-- A scene record (`SCENE_SCHEMA` in `01_cinematic_preroll.py`). -/
structure Scene where
  scene_id : Nat
  location : String
  pre_action_description : String
  panels : List Panel
deriving DecidableEq, Repr

/-- The dict comprehension
`reversed_map = {item['panel_index']: item['motion_prompt_reversed'] for item in result}`
of `apply_reversal_pass`: when the service returns the same `panel_index`
twice, the later entry wins, exactly as in a Python dict comprehension. -/
def reversedMapLookup (result : List (Nat × String)) (i : Nat) : Option String :=
  (result.reverse.find? (fun item => item.1 == i)).map (fun item => item.2)

/-- `apply_reversal_pass` (`01_cinematic_preroll.py`, lines 528-593), with the
service call abstracted into its returned JSON array `result` (the retry
wrapper may also yield an empty/falsy result, embedded as `[]`):
if no panel is flagged `is_reversed` the scene is returned untouched; if the
call result is falsy nothing is changed; otherwise every flagged panel whose
`panel_index` occurs in the result gets `motion_prompt_original` stashed,
`motion_prompt` replaced and `visual_start`/`visual_end` swapped. -/
def applyReversalPass (scene : Scene) (result : List (Nat × String)) : Scene :=
  if (scene.panels.filter (fun p => p.is_reversed)).isEmpty then scene
  else if result.isEmpty then scene
  else { scene with panels := scene.panels.map (fun p =>
    if p.is_reversed then
      match reversedMapLookup result p.panel_index with
      | some m =>
        { p with motion_prompt_original := some p.motion_prompt
                 motion_prompt := m
                 visual_start := p.visual_end
                 visual_end := p.visual_start }
      | none => p
    else p) }

/-- A default-valued panel, used to build concrete test panels. -/
def basePanel : Panel :=
  { panel_index := 1
    visual_start := ""
    visual_end := ""
    motion_prompt := ""
    motion_prompt_reversed := ""
    is_reversed := false
    lights_and_camera := ""
    dialogue := ""
    caption := ""
    duration := 0
    references := []
    motion_prompt_original := none }

theorem applyReversalPass_panels_length (scene : Scene) (result : List (Nat × String)) :
    (applyReversalPass scene result).panels.length = scene.panels.length := by
  unfold applyReversalPass
  split
  · rfl
  · split
    · rfl
    · simp

theorem applyReversalPass_scene_id (scene : Scene) (result : List (Nat × String)) :
    (applyReversalPass scene result).scene_id = scene.scene_id := by
  unfold applyReversalPass
  split
  · rfl
  · split <;> rfl

/-- C1. For every scene run through the reversal sub-pass: a panel flagged
`is_reversed = true` whose `panel_index` is among the indices returned by the
service ends with `visual_start` equal to its pre-pass `visual_end`,
`visual_end` equal to its pre-pass `visual_start`, `motion_prompt_original`
equal to its pre-pass `motion_prompt`, and `motion_prompt` equal to the
returned reversed-motion text; a panel flagged `is_reversed = true` whose
index is absent from the returned list is left completely unchanged. -/
theorem apply_reversal_pass_correct (scene : Scene) (result : List (Nat × String))
    (i : Nat) (p : Panel) (hp : scene.panels[i]? = some p) (hrev : p.is_reversed = true) :
    (∀ m, reversedMapLookup result p.panel_index = some m →
      (applyReversalPass scene result).panels[i]? = some
        { p with motion_prompt_original := some p.motion_prompt
                 motion_prompt := m
                 visual_start := p.visual_end
                 visual_end := p.visual_start }) ∧
    (reversedMapLookup result p.panel_index = none →
      (applyReversalPass scene result).panels[i]? = some p) := by
  have hmem : p ∈ scene.panels := by
    exact List.getElem?_mem hp
  have hfilter : ¬ (scene.panels.filter (fun q => q.is_reversed)).isEmpty := by
    simp only [List.isEmpty_iff, List.filter_eq_nil_iff]
    intro hall
    exact absurd hrev (by simpa using hall p hmem)
  constructor
  · intro m hm
    by_cases hres : result.isEmpty
    · exfalso
      have : result = [] := List.isEmpty_iff.mp hres
      subst this
      simp [reversedMapLookup] at hm
    · unfold applyReversalPass
      rw [if_neg hfilter, if_neg hres]
      simp only [List.getElem?_map, hp, Option.map_some']
      rw [hrev]
      simp only [if_true, hm]
  · intro hm
    by_cases hres : result.isEmpty
    · unfold applyReversalPass
      rw [if_neg hfilter, if_pos hres]
      exact hp
    · unfold applyReversalPass
      rw [if_neg hfilter, if_neg hres]
      simp only [List.getElem?_map, hp, Option.map_some']
      rw [hrev]
      simp only [if_true, hm]

/-- Witness for C1, mirroring the spec's Scenario B: a two-panel scene whose
second panel is flagged reversed with `visual_start = "fog"`,
`visual_end = "man revealed"`; with the service returning
`motion_prompt_reversed = "fog forms over 3s"` for panel 2, the pass swaps the
two visuals, stashes the original motion prompt and installs the new one,
while a reversed panel absent from the result would stay unchanged. -/
def scenarioBPanel : Panel :=
  { basePanel with
      panel_index := 2
      is_reversed := true
      visual_start := "fog"
      visual_end := "man revealed"
      motion_prompt := "man fades into fog" }

def scenarioBScene : Scene :=
  { scene_id := 1
    location := "ruins"
    pre_action_description := ""
    panels := [{ basePanel with panel_index := 1 }, scenarioBPanel] }

theorem apply_reversal_pass_correct_witness :
    (applyReversalPass scenarioBScene [(2, "fog forms over 3s")]).panels[1]? = some
      { scenarioBPanel with
          visual_start := "man revealed"
          visual_end := "fog"
          motion_prompt := "fog forms over 3s"
          motion_prompt_original := some "man fades into fog" } := by
  exact (apply_reversal_pass_correct scenarioBScene [(2, "fog forms over 3s")] 1
    scenarioBPanel (by rfl) (by rfl)).1 "fog forms over 3s" (by rfl)

/-! ### Master scene analysis: dense `scene_id` numbering (C2)

`analyze_scenes_master` (`01_cinematic_preroll.py`, lines 614-683) fans out
`analyze_scenes_for_episode` over a thread pool; each completed call appends
`(episode_counter, data)` to a shared list in arbitrary completion order.
After the join the list is sorted by episode id, and a sequential pass
increments `scene_counter` over the flattened scenes to build the refinement
tasks.  `refine_single_scene` (lines 595-612) stamps the assigned
`scene_id` onto the refined scene, renumbers its panels densely and runs the
reversal pass; completed refinements again arrive in arbitrary order and are
finally sorted by `scene_id`.

A refinement call can fail: `generate_json_with_schema` swallows every
exception and returns `{}`, so `refine_scenes_for_episode` yields a falsy
result whose `.get('scenes', [])[0]` raises `IndexError` inside the worker.
The `executor.map` iterator is never consumed, so the exception vanishes,
`all_scenes.append` never runs, and the merged output is simply missing that
scene — its assigned `scene_id` becomes a gap.  (Per-episode analysis
failures do not cause gaps: `analyze_scenes_for_episode` appends
`(episode_counter, {})` and the numbering pass walks `data.get('scenes', [])`
after the join.) -/

instance : DecidableRel (fun (a b : Nat × List Scene) => a.1 ≤ b.1) :=
  fun a b => Nat.decLe a.1 b.1

instance : IsTotal (Nat × List Scene) (fun a b => a.1 ≤ b.1) :=
  ⟨fun a b => Nat.le_total a.1 b.1⟩

instance : IsTrans (Nat × List Scene) (fun a b => a.1 ≤ b.1) :=
  ⟨fun _ _ _ => Nat.le_trans⟩

instance : DecidableRel (fun (a b : Scene) => a.scene_id ≤ b.scene_id) :=
  fun a b => Nat.decLe a.scene_id b.scene_id

instance : IsTotal Scene (fun a b => a.scene_id ≤ b.scene_id) :=
  ⟨fun a b => Nat.le_total a.scene_id b.scene_id⟩

instance : IsTrans Scene (fun a b => a.scene_id ≤ b.scene_id) :=
  ⟨fun _ _ _ => Nat.le_trans⟩

/-- `all_episodes = sorted(all_episodes, key=lambda e: e[0])`: the per-episode
analysis results, sorted by originating episode id after the join
(Python's `sorted` is a stable comparison sort; only sortedness and
permutation matter here). -/
def sortEpisodeResults (l : List (Nat × List Scene)) : List (Nat × List Scene) :=
  l.insertionSort (fun a b => a.1 ≤ b.1)

/-- The sequential numbering loop of `analyze_scenes_master`: episodes are
walked in sorted order, `scene_counter` is incremented for every scene, and
each scene draft becomes a refinement task carrying its assigned
`scene_id`. -/
def numberedRefinementTasks (episodeResults : List (Nat × List Scene)) :
    List (Nat × Scene) :=
  List.enumFrom 1 (((sortEpisodeResults episodeResults).map Prod.snd).flatten)

/-- `refine_single_scene`.  `refinedScenes` is the `scenes` list of the
parsed refinement response; `[]` embeds both a falsy `{}` failure result and
a present-but-empty list.  On `[]`, `.get('scenes', [])[0]` raises
`IndexError`: the worker dies, the exception is swallowed by the unconsumed
`executor.map` iterator, and nothing is appended (`none`).  Otherwise the
first returned scene gets the assigned `scene_id` stamped on, its panels
renumbered densely from 1, and the reversal pass applied. -/
def refineSingleScene (refinedScenes : List Scene) (sceneId : Nat)
    (reversalResult : List (Nat × String)) : Option Scene :=
  match refinedScenes with
  | [] => none
  | s :: _ =>
    some (applyReversalPass
      { s with
          scene_id := sceneId
          panels := (List.enumFrom 1 s.panels).map
            (fun x => { x.2 with panel_index := x.1 }) }
      reversalResult)

/-- The scenes appended to `all_scenes` by the refinement fan-out:
`refineLLM` and `revLLM` abstract the nondeterministic service responses
(`refineLLM t = []` is a failed or unparseable refinement call for task
`t`); a failed worker contributes nothing to the shared list. -/
def refinementOutputs (episodeResults : List (Nat × List Scene))
    (refineLLM : Nat × Scene → List Scene) (revLLM : Nat → List (Nat × String)) :
    List Scene :=
  (numberedRefinementTasks episodeResults).filterMap
    (fun t => refineSingleScene (refineLLM t) t.1 (revLLM t.1))

/-- `all_scenes = sorted(all_scenes, key=lambda s: s['scene_id'])`: the final
merge of the concurrently produced refined scenes. -/
def mergedScenes (allScenes : List Scene) : List Scene :=
  allScenes.insertionSort (fun a b => a.scene_id ≤ b.scene_id)

theorem refineSingleScene_scene_id {refinedScenes : List Scene} {sceneId : Nat}
    {reversalResult : List (Nat × String)} {s : Scene}
    (h : refineSingleScene refinedScenes sceneId reversalResult = some s) :
    s.scene_id = sceneId := by
  cases refinedScenes with
  | nil => simp [refineSingleScene] at h
  | cons r rest =>
    simp only [refineSingleScene, Option.some.injEq] at h
    rw [← h, applyReversalPass_scene_id]

theorem numberedRefinementTasks_map_fst (episodeResults : List (Nat × List Scene)) :
    (numberedRefinementTasks episodeResults).map Prod.fst =
      List.range' 1 (numberedRefinementTasks episodeResults).length := by
  unfold numberedRefinementTasks
  rw [List.enumFrom_map_fst, List.enumFrom_length]

theorem filterMap_ids_sublist (g : Nat × Scene → Option Scene)
    (hg : ∀ t s, g t = some s → s.scene_id = t.1) :
    ∀ l : List (Nat × Scene),
      ((l.filterMap g).map Scene.scene_id).Sublist (l.map Prod.fst)
  | [] => List.Sublist.refl _
  | t :: l => by
    rw [List.filterMap_cons]
    cases hgt : g t with
    | none =>
      rw [List.map_cons]
      exact (filterMap_ids_sublist g hg l).cons t.1
    | some s =>
      rw [List.map_cons, List.map_cons, hg t s hgt]
      exact (filterMap_ids_sublist g hg l).cons₂ t.1

theorem filterMap_ids_all_some (g : Nat × Scene → Option Scene)
    (hg : ∀ t s, g t = some s → s.scene_id = t.1) :
    ∀ l : List (Nat × Scene), (∀ t ∈ l, ∃ s, g t = some s) →
      (l.filterMap g).map Scene.scene_id = l.map Prod.fst
  | [], _ => rfl
  | t :: l, hall => by
    obtain ⟨s, hs⟩ := hall t (by simp)
    rw [List.filterMap_cons, hs, List.map_cons, List.map_cons, hg t s hs,
      filterMap_ids_all_some g hg l (fun u hu => hall u (by simp [hu]))]

theorem sorted_le_range' : ∀ (s n : Nat), List.Sorted (· ≤ ·) (List.range' s n)
  | _, 0 => List.sorted_nil
  | s, n + 1 => by
    rw [List.range'_succ]
    refine List.sorted_cons.mpr ⟨?_, sorted_le_range' (s + 1) n⟩
    intro b hb
    obtain ⟨i, _, rfl⟩ := List.mem_range'.mp hb
    omega

/-- Counterexample to C2: one episode returns three scene drafts; the
refinement call for the scene assigned `scene_id = 2` fails (falsy `{}`
response, so `.get('scenes', [])[0]` raises `IndexError` inside its worker
and the unconsumed `executor.map` iterator swallows it).  The merged output
then holds two scenes with `scene_id`s `[1, 3]` — a gap, not the contiguous
sequence `1..2`. -/
theorem scene_id_gap_counterexample :
    (mergedScenes (refinementOutputs
      [(1, [{ scene_id := 0, location := "a", pre_action_description := "", panels := [] },
            { scene_id := 0, location := "a", pre_action_description := "", panels := [] },
            { scene_id := 0, location := "a", pre_action_description := "", panels := [] }])]
      (fun t => if t.1 = 2 then [] else [t.2])
      (fun _ => []))).map Scene.scene_id = [1, 3] ∧
    ([1, 3] : List Nat) ≠ List.range' 1 2 := by
  exact ⟨by decide, by decide⟩

/-- C2 as amended.  Whatever the completion orders of the concurrent
per-episode scene-analysis calls (`episodeResults` is any arrival order) and
of the concurrent per-scene refinement calls (`allScenes` is any permutation
of the surviving refinement outputs), the `scene_id`s of the final merged
output are strictly increasing with no duplicates, each lying in `1..N`
where `N` is the number of refinement tasks produced by the episode-ordered
sequential numbering pass; and they are exactly the contiguous sequence
`1..N` whenever every refinement call succeeds (returns a non-empty `scenes`
list).  A failed refinement call silently drops its scene, leaving a gap at
its assigned id. -/
theorem analyze_scenes_master_scene_ids_amended
    (episodeResults : List (Nat × List Scene))
    (refineLLM : Nat × Scene → List Scene) (revLLM : Nat → List (Nat × String))
    (allScenes : List Scene)
    (harrival : allScenes.Perm (refinementOutputs episodeResults refineLLM revLLM)) :
    List.Sorted (· < ·) ((mergedScenes allScenes).map Scene.scene_id) ∧
    (∀ i ∈ (mergedScenes allScenes).map Scene.scene_id,
      1 ≤ i ∧ i ≤ (numberedRefinementTasks episodeResults).length) ∧
    ((∀ t ∈ numberedRefinementTasks episodeResults, refineLLM t ≠ []) →
      (mergedScenes allScenes).map Scene.scene_id =
        List.range' 1 (numberedRefinementTasks episodeResults).length) := by
  have hg : ∀ (t : Nat × Scene) (s : Scene),
      refineSingleScene (refineLLM t) t.1 (revLLM t.1) = some s → s.scene_id = t.1 :=
    fun _ _ h => refineSingleScene_scene_id h
  have hperm1 : (mergedScenes allScenes).Perm
      (refinementOutputs episodeResults refineLLM revLLM) :=
    (List.perm_insertionSort _ allScenes).trans harrival
  have hpermIds := hperm1.map Scene.scene_id
  have hsub : ((refinementOutputs episodeResults refineLLM revLLM).map
      Scene.scene_id).Sublist
      (List.range' 1 (numberedRefinementTasks episodeResults).length) := by
    rw [← numberedRefinementTasks_map_fst]
    exact filterMap_ids_sublist _ hg _
  have hsortedle : List.Sorted (· ≤ ·) ((mergedScenes allScenes).map Scene.scene_id) := by
    have hs : List.Sorted (fun a b : Scene => a.scene_id ≤ b.scene_id)
        (mergedScenes allScenes) :=
      List.sorted_insertionSort _ allScenes
    exact (List.pairwise_map).mpr hs
  have hnodup : ((mergedScenes allScenes).map Scene.scene_id).Nodup := by
    rw [hpermIds.nodup_iff]
    exact hsub.nodup (List.nodup_range' _ _)
  refine ⟨hsortedle.lt_of_le hnodup, ?_, ?_⟩
  · intro i hi
    have hmem : i ∈ List.range' 1 (numberedRefinementTasks episodeResults).length :=
      hsub.subset (hpermIds.mem_iff.mp hi)
    obtain ⟨k, hk, rfl⟩ := List.mem_range'.mp hmem
    omega
  · intro hall
    have hids : (refinementOutputs episodeResults refineLLM revLLM).map Scene.scene_id =
        List.range' 1 (numberedRefinementTasks episodeResults).length := by
      rw [← numberedRefinementTasks_map_fst]
      refine filterMap_ids_all_some _ hg _ ?_
      intro t ht
      cases hre : refineLLM t with
      | nil => exact absurd hre (hall t ht)
      | cons s rest => exact ⟨_, rfl⟩
    exact List.eq_of_perm_of_sorted (hids ▸ hpermIds) hsortedle (sorted_le_range' 1 _)

/-- Witness for C2 (amended): two episodes arriving out of order (episode
2's analysis completes first), all three refinement calls succeeding,
refinements also arriving out of order; the merged output carries
`scene_id`s `[1, 2, 3]` — the contiguous `range' 1 3`. -/
theorem analyze_scenes_master_scene_ids_amended_witness :
    (mergedScenes
      [ { scene_id := 3, location := "b", pre_action_description := "", panels := [] },
        { scene_id := 1, location := "a", pre_action_description := "", panels := [] },
        { scene_id := 2, location := "a", pre_action_description := "", panels := [] } ]).map
      Scene.scene_id = List.range' 1 3 := by
  have h := analyze_scenes_master_scene_ids_amended
    [ (2, [{ scene_id := 0, location := "b", pre_action_description := "", panels := [] }]),
      (1, [{ scene_id := 0, location := "a", pre_action_description := "", panels := [] },
           { scene_id := 0, location := "a", pre_action_description := "", panels := [] }]) ]
    (fun t => [t.2]) (fun _ => [])
    [ { scene_id := 3, location := "b", pre_action_description := "", panels := [] },
      { scene_id := 1, location := "a", pre_action_description := "", panels := [] },
      { scene_id := 2, location := "a", pre_action_description := "", panels := [] } ]
    (by decide)
  exact h.2.2 (by decide)

/-! ### Grid slicing (C3, C10)

`slice_combined` (`01_cinematic_preroll.py`, lines 818-869) partitions the
composite raster into a grid whose shape depends only on the configured panel
count, writing each crop under a filename that zero-pads the scene id to 3
digits and the panel index to 2 digits with a role token.  The independent
re-slice of the Quality Gate, `slice_grid`
(`05_grid_quality_gate.py`, lines 232-270), computes the same shape. -/

/-- The crop rectangle handed to `PIL.Image.crop`: `(left, top, right, bottom)`. -/
structure Box where
  left : Nat
  top : Nat
  right : Nat
  bottom : Nat
deriving DecidableEq, Repr

/-- The `cols, rows` computation shared verbatim by `slice_combined` (01) and
`slice_grid` (05): `9 → 3×3`, `6 → 3×2`, `4 → 2×2`, otherwise
`3 × ((n + 2) // 3)`. -/
def gridShape (panelsPerScene : Nat) : Nat × Nat :=
  if panelsPerScene = 9 then (3, 3)
  else if panelsPerScene = 6 then (3, 2)
  else if panelsPerScene = 4 then (2, 2)
  else (3, (panelsPerScene + 2) / 3)

/-- Python's `{n:0wd}` zero-padded decimal formatting. -/
def zeroPad (width n : Nat) : String :=
  let s := Nat.repr n
  if s.length < width then String.mk (List.replicate (width - s.length) '0') ++ s
  else s

/-- The panel-asset filename `f"{sid:03d}_{idx:02d}_{role}.png"`. -/
def panelFilename (sid idx : Nat) (role : String) : String :=
  zeroPad 3 sid ++ "_" ++ zeroPad 2 idx ++ "_" ++ role ++ ".png"

/-- One half of the dual-grid slice loops: all `rows × cols` cells in
row-major order, with `idx` restarting at 1, boxes offset vertically by
`yOff` (0 for the START half, `h // 2` for the END half). -/
def dualHalfCrops (pw ph yOff cols rows sid : Nat) (role : String) :
    List (String × Box) :=
  (List.range rows).flatMap (fun r => (List.range cols).map (fun c =>
    (panelFilename sid (r * cols + c + 1) role,
      { left := c * pw, top := yOff + r * ph
        right := (c + 1) * pw, bottom := yOff + (r + 1) * ph })))

/-- One row of the single-grid slice loop.  The `if idx > panels_per_scene:
break` statement exits the inner (column) loop only; `fuel` counts the
remaining columns of the row. -/
def singleRowCrops (sid pw ph n r : Nat) : Nat → Nat → Nat → List (String × Box)
  | 0, _, _ => []
  | fuel + 1, c, idx =>
    if n < idx then []
    else (panelFilename sid idx "static",
      { left := c * pw, top := r * ph, right := (c + 1) * pw, bottom := (r + 1) * ph }) ::
      singleRowCrops sid pw ph n r fuel (c + 1) (idx + 1)

/-- The outer (row) loop of the single-grid slice; `idx` threads across rows
exactly as the Python counter does. -/
def singleCrops (sid pw ph n cols : Nat) : Nat → Nat → Nat → List (String × Box)
  | 0, _, _ => []
  | fuel + 1, r, idx =>
    let rowOut := singleRowCrops sid pw ph n r cols 0 idx
    rowOut ++ singleCrops sid pw ph n cols fuel (r + 1) (idx + rowOut.length)

/-- `slice_combined`, returning the (filename, crop box) pairs it saves, for a
composite of size `w × h`.  In dual-grid mode the START half is cut from the
top `h // 2` rows and the END half below; in single-grid mode one grid is cut
with the trailing cells beyond `panels_per_scene` skipped. -/
def sliceCombined (w h sid : Nat) (isDual : Bool) (panelsPerScene : Nat) :
    List (String × Box) :=
  let cols := (gridShape panelsPerScene).1
  let rows := (gridShape panelsPerScene).2
  if isDual then
    let halfH := h / 2
    let pw := w / cols
    let ph := halfH / rows
    dualHalfCrops pw ph 0 cols rows sid "start" ++
      dualHalfCrops pw ph halfH cols rows sid "end"
  else
    let pw := w / cols
    let ph := h / rows
    singleCrops sid pw ph panelsPerScene cols rows 0 1

theorem dualHalfCrops_length (pw ph yOff cols rows sid : Nat) (role : String) :
    (dualHalfCrops pw ph yOff cols rows sid role).length = rows * cols := by
  unfold dualHalfCrops
  rw [List.length_flatMap]
  simp [Function.comp_def, Finset.sum_const]

theorem dualHalfCrops_box_bounds (pw ph yOff cols rows sid : Nat) (role : String)
    (e : String × Box) (he : e ∈ dualHalfCrops pw ph yOff cols rows sid role) :
    yOff ≤ e.2.top ∧ e.2.bottom ≤ yOff + rows * ph ∧
    e.2.right - e.2.left = pw ∧ e.2.bottom - e.2.top = ph := by
  unfold dualHalfCrops at he
  rw [List.mem_flatMap] at he
  obtain ⟨r, hr, he⟩ := he
  rw [List.mem_map] at he
  obtain ⟨c, _, rfl⟩ := he
  rw [List.mem_range] at hr
  have hmul : (r + 1) * ph ≤ rows * ph := Nat.mul_le_mul_right ph (by omega)
  have hrph : (r + 1) * ph = r * ph + ph := by
    rw [Nat.add_mul, Nat.one_mul]
  have hcpw : (c + 1) * pw = c * pw + pw := by
    rw [Nat.add_mul, Nat.one_mul]
  refine ⟨?_, ?_, ?_, ?_⟩ <;> dsimp only <;> omega

/-- C3. The composite is partitioned into a grid determined purely by the
configured panel count (`9 → 3×3`, `6 → 3×2`, `4 → 2×2`, else
`3 × ⌈n/3⌉ = 3 × (n+2)/3`); in dual-grid mode the slice is the START half
followed by the END half, the START cells lying wholly above the vertical
midpoint `h/2` and the END cells wholly below it, every cell measuring
`(w/cols) × ((h/2)/rows)`; and a `1200×1200` composite configured for 9
panels in single-grid mode yields exactly nine `400×400` crops named
`{sid:03d}_{01..09:02d}_static.png`. -/
theorem slice_combined_spec :
    (gridShape 9 = (3, 3) ∧ gridShape 6 = (3, 2) ∧ gridShape 4 = (2, 2)) ∧
    (∀ n, n ≠ 9 → n ≠ 6 → n ≠ 4 → gridShape n = (3, (n + 2) / 3)) ∧
    (∀ w h sid n,
      sliceCombined w h sid true n =
        dualHalfCrops (w / (gridShape n).1) ((h / 2) / (gridShape n).2) 0
          (gridShape n).1 (gridShape n).2 sid "start" ++
        dualHalfCrops (w / (gridShape n).1) ((h / 2) / (gridShape n).2) (h / 2)
          (gridShape n).1 (gridShape n).2 sid "end") ∧
    (∀ w h sid n role yOff,
      (dualHalfCrops (w / (gridShape n).1) ((h / 2) / (gridShape n).2) yOff
        (gridShape n).1 (gridShape n).2 sid role).length =
        (gridShape n).2 * (gridShape n).1) ∧
    (∀ w h sid n e,
      e ∈ dualHalfCrops (w / (gridShape n).1) ((h / 2) / (gridShape n).2) 0
        (gridShape n).1 (gridShape n).2 sid "start" →
      e.2.bottom ≤ h / 2 ∧ e.2.right - e.2.left = w / (gridShape n).1 ∧
        e.2.bottom - e.2.top = (h / 2) / (gridShape n).2) ∧
    (∀ w h sid n e,
      e ∈ dualHalfCrops (w / (gridShape n).1) ((h / 2) / (gridShape n).2) (h / 2)
        (gridShape n).1 (gridShape n).2 sid "end" →
      h / 2 ≤ e.2.top) ∧
    (∀ sid, sliceCombined 1200 1200 sid false 9 =
      [ (panelFilename sid 1 "static", ⟨0, 0, 400, 400⟩),
        (panelFilename sid 2 "static", ⟨400, 0, 800, 400⟩),
        (panelFilename sid 3 "static", ⟨800, 0, 1200, 400⟩),
        (panelFilename sid 4 "static", ⟨0, 400, 400, 800⟩),
        (panelFilename sid 5 "static", ⟨400, 400, 800, 800⟩),
        (panelFilename sid 6 "static", ⟨800, 400, 1200, 800⟩),
        (panelFilename sid 7 "static", ⟨0, 800, 400, 1200⟩),
        (panelFilename sid 8 "static", ⟨400, 800, 800, 1200⟩),
        (panelFilename sid 9 "static", ⟨800, 800, 1200, 1200⟩) ]) := by
  refine ⟨⟨rfl, rfl, rfl⟩, ?_, ?_, ?_, ?_, ?_, ?_⟩
  · intro n h9 h6 h4
    unfold gridShape
    rw [if_neg h9, if_neg h6, if_neg h4]
  · intro w h sid n
    rfl
  · intro w h sid n role yOff
    exact dualHalfCrops_length _ _ _ _ _ _ _
  · intro w h sid n e he
    have hb := dualHalfCrops_box_bounds _ _ _ _ _ _ _ _ he
    refine ⟨?_, hb.2.2.1, hb.2.2.2⟩
    calc e.2.bottom ≤ 0 + (gridShape n).2 * ((h / 2) / (gridShape n).2) := hb.2.1
      _ ≤ h / 2 := by
        rw [Nat.zero_add, Nat.mul_comm]
        exact Nat.div_mul_le_self _ _
  · intro w h sid n e he
    exact (dualHalfCrops_box_bounds _ _ _ _ _ _ _ _ he).1
  · intro sid
    rfl

/-- Witness for C3: concrete instantiations of the hypotheses — the
non-special panel count 5 gives a `3 × ⌈5/3⌉ = 3 × 2` grid (with implications
discharged at `n = 5`), and a concrete START cell of a `1200 × 1000`
dual-grid slice lies above the midpoint `500` with size `400 × 166`. -/
theorem slice_combined_spec_witness :
    gridShape 5 = (3, (5 + 2) / 3) ∧
    ({ left := 0, top := 0, right := 400, bottom := 166 } : Box).bottom ≤ 1000 / 2 := by
  constructor
  · exact slice_combined_spec.2.1 5 (by decide) (by decide) (by decide)
  · exact (slice_combined_spec.2.2.2.2.1 1200 1000 1 9
      (panelFilename 1 1 "start", { left := 0, top := 0, right := 400, bottom := 166 })
      (by decide)).1

/-! ### Quality Gate directives (C4, C5)

`analyze_panel` (`05_grid_quality_gate.py`, lines 277-406) sends one panel
crop to the scoring model; a parsed JSON response is used verbatim, while any
exception (API failure or unparseable response) is replaced by the
maximally-pessimistic fallback dict of lines 390-398.  The parsed result or
fallback is then enriched with `scene_id`/`panel_id` metadata. -/

/-- The Quality Directive (`PANEL_QA_SCHEMA`).  The schema declares the three
scores as integers and merely *describes* the 0-10 range in prose, so a
parsed response can carry any integer. -/
structure QualityDirective where
  fidelity : Int
  character_consistency : Int
  composition_match : Int
  artifacts : List String
  needs_refinement : Bool
  refinement_prompt : String
  reasoning : String
deriving DecidableEq, Repr

/-- The `except` fallback of `analyze_panel`: zero scores, an `API_ERROR`
artifact carrying the first 200 characters of the error text, and
`needs_refinement = True`. -/
def apiErrorDirective (errText : String) : QualityDirective :=
  { fidelity := 0
    character_consistency := 0
    composition_match := 0
    artifacts := ["API_ERROR: " ++ errText.take 200]
    needs_refinement := true
    refinement_prompt := "API call failed, manual review required."
    reasoning := "Error: " ++ errText }

/-- The try/except of `analyze_panel`: the parsed response is used verbatim
when the call succeeds (`some`), and replaced by the pessimistic fallback when
it raises or cannot be parsed (`none`). -/
def analyzePanelResult (apiResult : Option QualityDirective) (errText : String) :
    QualityDirective :=
  match apiResult with
  | some r => r
  | none => apiErrorDirective errText

/-- The per-panel loop of `process_scene` (lines 436-461): every panel in
range is scored and appended to the results — `analyze_panel` always returns a
directive, so no panel is dropped by a scoring failure. -/
def processScenePanels (panels : List Nat)
    (responses : Nat → Option QualityDirective) (errText : Nat → String) :
    List (Nat × QualityDirective) :=
  panels.map (fun pid => (pid, analyzePanelResult (responses pid) (errText pid)))

/-- C4. If the scoring call for a panel raises or returns an unparseable
response, the Quality Gate emits for that panel a directive with
`needs_refinement = true`, all three scores zero and an `API_ERROR` artifact,
directives for every other panel are exactly the parsed service responses,
and no panel is dropped: the report has one entry per scored panel. -/
theorem analyze_panel_api_error_isolated (panels : List Nat)
    (responses : Nat → Option QualityDirective) (errText : Nat → String) :
    (processScenePanels panels responses errText).length = panels.length ∧
    (∀ (i pid : Nat), panels[i]? = some pid → responses pid = none →
      (processScenePanels panels responses errText)[i]? =
        some (pid, apiErrorDirective (errText pid)) ∧
      (apiErrorDirective (errText pid)).needs_refinement = true ∧
      (apiErrorDirective (errText pid)).fidelity = 0 ∧
      (apiErrorDirective (errText pid)).character_consistency = 0 ∧
      (apiErrorDirective (errText pid)).composition_match = 0 ∧
      (apiErrorDirective (errText pid)).artifacts =
        ["API_ERROR: " ++ (errText pid).take 200]) ∧
    (∀ (i pid : Nat) (d : QualityDirective), panels[i]? = some pid → responses pid = some d →
      (processScenePanels panels responses errText)[i]? = some (pid, d)) := by
  refine ⟨?_, ?_, ?_⟩
  · unfold processScenePanels
    rw [List.length_map]
  · intro i pid hpid hnone
    refine ⟨?_, rfl, rfl, rfl, rfl, rfl⟩
    unfold processScenePanels
    rw [List.getElem?_map, hpid]
    simp [analyzePanelResult, hnone]
  · intro i pid d hpid hsome
    unfold processScenePanels
    rw [List.getElem?_map, hpid]
    simp [analyzePanelResult, hsome]

/-- Witness for C4, mirroring the spec's Scenario D: five panels, panel 3's
scoring call fails, the others parse with `needs_refinement = false`; the
report keeps all five panels, panel 3 carrying the pessimistic directive and
panel 4 its parsed response. -/
theorem analyze_panel_api_error_isolated_witness :
    (processScenePanels [1, 2, 3, 4, 5]
      (fun pid => if pid = 3 then none else some
        { fidelity := 8, character_consistency := 9, composition_match := 7
          artifacts := [], needs_refinement := false, refinement_prompt := ""
          reasoning := "ok" })
      (fun _ => "503 Service Unavailable")).length = 5 ∧
    (processScenePanels [1, 2, 3, 4, 5]
      (fun pid => if pid = 3 then none else some
        { fidelity := 8, character_consistency := 9, composition_match := 7
          artifacts := [], needs_refinement := false, refinement_prompt := ""
          reasoning := "ok" })
      (fun _ => "503 Service Unavailable"))[2]? =
      some (3, apiErrorDirective "503 Service Unavailable") ∧
    (processScenePanels [1, 2, 3, 4, 5]
      (fun pid => if pid = 3 then none else some
        { fidelity := 8, character_consistency := 9, composition_match := 7
          artifacts := [], needs_refinement := false, refinement_prompt := ""
          reasoning := "ok" })
      (fun _ => "503 Service Unavailable"))[3]? =
      some (4, { fidelity := 8, character_consistency := 9, composition_match := 7
                 artifacts := [], needs_refinement := false, refinement_prompt := ""
                 reasoning := "ok" }) := by
  refine ⟨(analyze_panel_api_error_isolated _ _ _).1, ?_, ?_⟩
  · exact ((analyze_panel_api_error_isolated [1, 2, 3, 4, 5]
      (fun pid => if pid = 3 then none else some
        { fidelity := 8, character_consistency := 9, composition_match := 7
          artifacts := [], needs_refinement := false, refinement_prompt := ""
          reasoning := "ok" })
      (fun _ => "503 Service Unavailable")).2.1 2 3 rfl rfl).1
  · exact (analyze_panel_api_error_isolated [1, 2, 3, 4, 5]
      (fun pid => if pid = 3 then none else some
        { fidelity := 8, character_consistency := 9, composition_match := 7
          artifacts := [], needs_refinement := false, refinement_prompt := ""
          reasoning := "ok" })
      (fun _ => "503 Service Unavailable")).2.2 3 4
      { fidelity := 8, character_consistency := 9, composition_match := 7
        artifacts := [], needs_refinement := false, refinement_prompt := ""
        reasoning := "ok" } rfl rfl

/-- A quality directive satisfies the spec's validity invariant when its three
scores lie in `[0, 10]` and an empty refinement prompt accompanies
`needs_refinement = false`. -/
def directiveValid (d : QualityDirective) : Prop :=
  0 ≤ d.fidelity ∧ d.fidelity ≤ 10 ∧
  0 ≤ d.character_consistency ∧ d.character_consistency ≤ 10 ∧
  0 ≤ d.composition_match ∧ d.composition_match ≤ 10 ∧
  (d.needs_refinement = false → d.refinement_prompt = "")

/-- Counterexample to C5: the engine performs no capping or validation — a
parsed service response with `fidelity = 11` and a non-empty
`refinement_prompt` despite `needs_refinement = false` is passed through
verbatim, so the emitted directive violates the claimed invariant. -/
theorem analyze_panel_no_capping_counterexample :
    (analyzePanelResult (some
      { fidelity := 11, character_consistency := -1, composition_match := 12
        artifacts := [], needs_refinement := false, refinement_prompt := "sharpen"
        reasoning := "" }) "").fidelity = 11 ∧
    ¬ ((analyzePanelResult (some
      { fidelity := 11, character_consistency := -1, composition_match := 12
        artifacts := [], needs_refinement := false, refinement_prompt := "sharpen"
        reasoning := "" }) "").fidelity ≤ 10) ∧
    (analyzePanelResult (some
      { fidelity := 11, character_consistency := -1, composition_match := 12
        artifacts := [], needs_refinement := false, refinement_prompt := "sharpen"
        reasoning := "" }) "").needs_refinement = false ∧
    (analyzePanelResult (some
      { fidelity := 11, character_consistency := -1, composition_match := 12
        artifacts := [], needs_refinement := false, refinement_prompt := "sharpen"
        reasoning := "" }) "").refinement_prompt ≠ "" := by
  refine ⟨rfl, by decide, rfl, by decide⟩

/-- C5 as amended: the engine does not cap or validate score fields — a
parsed response is emitted verbatim, so the `[0,10]` bounds and the
`needs_refinement = false → refinement_prompt = ""` implication hold exactly
when the service response already satisfies them; the pessimistic fallback
directive emitted on an unparseable response always satisfies the
invariant. -/
theorem analyze_panel_directive_validity :
    (∀ (r : QualityDirective) (e : String), analyzePanelResult (some r) e = r) ∧
    (∀ e : String, directiveValid (analyzePanelResult none e)) := by
  refine ⟨fun r e => rfl, fun e => ?_⟩
  norm_num [directiveValid, analyzePanelResult, apiErrorDirective]

/-! ### Retry wrapper (C6)

`retry_on_errors` (`01_cinematic_preroll.py`, lines 78-102) wraps a call in a
`while retries < max_retries` loop.  An exception whose text contains `500`,
`503`, `Internal Server Error` or `Service Unavailable` is transient: the
retry counter is incremented, and either the *same* exception is re-raised
(when the counter reaches `max_retries`) or the loop sleeps
`backoff_factor ** retries` seconds and calls again.  Any other exception is
re-raised immediately.  If the loop is never entered (`max_retries = 0`) the
wrapper returns `None`. -/

/-- Substring test on character lists (Python's `in` on strings). -/
def hasSub : List Char → List Char → Bool
  | _, [] => true
  | [], _ :: _ => false
  | c :: cs, p :: ps => List.isPrefixOf (p :: ps) (c :: cs) || hasSub cs (p :: ps)

/-- The transient-error classification of `retry_on_errors`:
`'500' in s or '503' in s or 'Internal Server Error' in s or
'Service Unavailable' in s`. -/
def isTransientError (s : String) : Bool :=
  hasSub s.data "500".data || hasSub s.data "503".data ||
  hasSub s.data "Internal Server Error".data || hasSub s.data "Service Unavailable".data

/-- The retry loop, from a current retry count.  `f k` is the outcome of the
call performed with `retries = k` (only transient failures increment the
counter, so the `k`-th call always runs at `retries = k`).  The structural
`fuel` argument is the number of loop iterations still permitted by the
`while retries < max_retries` guard, i.e. `max_retries - retries`; when it is
exhausted the guard fails and Python's trailing `return None` runs.  Returns
the final outcome (`Except.error e` embeds an uncaught exception `e`;
`Except.ok none` embeds the fall-through `return None`) paired with the list
of back-off sleeps performed, in order. -/
def retryGo (f : Nat → Except String α) (maxRetries backoff : Nat) :
    Nat → Nat → Except String (Option α) × List Nat
  | 0, _ => (Except.ok none, [])
  | fuel + 1, retries =>
    match f retries with
    | Except.ok a => (Except.ok (some a), [])
    | Except.error e =>
      if isTransientError e then
        if maxRetries ≤ retries + 1 then (Except.error e, [])
        else
          let rest := retryGo f maxRetries backoff fuel (retries + 1)
          (rest.1, backoff ^ (retries + 1) :: rest.2)
      else (Except.error e, [])

/-- `retry_on_errors(max_retries, backoff_factor)` applied to a call whose
successive outcomes are `f 0, f 1, ...`: the loop starts at `retries = 0`
with `max_retries` iterations permitted by the guard. -/
def retryOnErrors (f : Nat → Except String α) (maxRetries backoff : Nat) :
    Except String (Option α) × List Nat :=
  retryGo f maxRetries backoff maxRetries 0

theorem retryGo_all_transient (f : Nat → Except String α) (maxRetries backoff : Nat) :
    ∀ (d retries : Nat), retries + d + 1 = maxRetries →
      (∀ i, retries ≤ i → i < maxRetries →
        ∃ e, f i = Except.error e ∧ isTransientError e = true) →
      ∃ e, f (maxRetries - 1) = Except.error e ∧ isTransientError e = true ∧
        retryGo f maxRetries backoff (d + 1) retries =
          (Except.error e, (List.range' (retries + 1) d).map (fun k => backoff ^ k)) := by
  intro d
  induction d with
  | zero =>
    intro retries hsum hall
    obtain ⟨e, hfe, htr⟩ := hall retries (Nat.le_refl _) (by omega)
    refine ⟨e, by rw [show maxRetries - 1 = retries by omega]; exact hfe, htr, ?_⟩
    simp [retryGo, hfe, htr, show maxRetries ≤ retries + 1 by omega]
  | succ d ih =>
    intro retries hsum hall
    obtain ⟨e₀, hfe₀, htr₀⟩ := hall retries (Nat.le_refl _) (by omega)
    obtain ⟨e, hfe, htr, hrec⟩ := ih (retries + 1) (by omega)
      (fun i hi hlt => hall i (by omega) hlt)
    refine ⟨e, hfe, htr, ?_⟩
    conv_lhs => rw [retryGo]
    simp only [hfe₀]
    rw [if_pos htr₀, if_neg (show ¬ maxRetries ≤ retries + 1 by omega)]
    rw [hrec, List.range'_succ, List.map_cons]

/-- Counterexample to C6: after exhausting the retries the wrapper does NOT
raise a terminal error distinguishable from a transient one — it re-raises
the very transient error it was retrying: with every call failing as
`503 Service Unavailable` and `max_retries = 3`, `backoff_factor = 2`, the
wrapper performs exactly the sleeps `[2, 4]` and the error finally raised is
the original transient-classified `503` error itself. -/
theorem retry_on_errors_terminal_counterexample :
    retryOnErrors (fun _ => (Except.error "503 Service Unavailable" : Except String Nat)) 3 2 =
      (Except.error "503 Service Unavailable", [2, 4]) ∧
    isTransientError "503 Service Unavailable" = true := by
  constructor
  · rfl
  · rfl

/-- C6 as amended.  A call failing with a transient (500/503/overload/
unavailable-class) error is retried until `max_retries` total attempts have
been made, sleeping `backoff_factor ^ attempt` seconds before retry number
`attempt`; a failure of any other class propagates immediately with no retry
and no sleep; a success on the first attempt returns immediately; and after
exhausting the retries the wrapper re-raises the last transient error itself,
unchanged (still classified transient, not a distinguishable terminal
error). -/
theorem retry_on_errors_amended {α : Type} :
    (∀ (f : Nat → Except String α) (maxRetries backoff : Nat) (a : α),
      0 < maxRetries → f 0 = Except.ok a →
      retryOnErrors f maxRetries backoff = (Except.ok (some a), [])) ∧
    (∀ (f : Nat → Except String α) (maxRetries backoff : Nat) (e : String),
      0 < maxRetries → f 0 = Except.error e → isTransientError e = false →
      retryOnErrors f maxRetries backoff = (Except.error e, [])) ∧
    (∀ (f : Nat → Except String α) (maxRetries backoff : Nat),
      0 < maxRetries →
      (∀ i, i < maxRetries → ∃ e, f i = Except.error e ∧ isTransientError e = true) →
      ∃ e, f (maxRetries - 1) = Except.error e ∧ isTransientError e = true ∧
        retryOnErrors f maxRetries backoff =
          (Except.error e,
            (List.range' 1 (maxRetries - 1)).map (fun k => backoff ^ k))) := by
  refine ⟨?_, ?_, ?_⟩
  · intro f maxRetries backoff a hpos hf
    obtain ⟨m, rfl⟩ : ∃ m, maxRetries = m + 1 := ⟨maxRetries - 1, by omega⟩
    simp [retryOnErrors, retryGo, hf]
  · intro f maxRetries backoff e hpos hf htr
    obtain ⟨m, rfl⟩ : ∃ m, maxRetries = m + 1 := ⟨maxRetries - 1, by omega⟩
    simp [retryOnErrors, retryGo, hf, htr]
  · intro f maxRetries backoff hpos hall
    have h := retryGo_all_transient f maxRetries backoff (maxRetries - 1) 0 (by omega)
      (fun i _ hlt => hall i hlt)
    rw [show maxRetries - 1 + 1 = maxRetries from by omega] at h
    simpa [retryOnErrors] using h

/-- Witness for C6 (amended): concrete runs with `max_retries = 3`,
`backoff_factor = 2` — an immediate success, an immediate propagation of a
non-transient error with no sleeps, and full exhaustion over always-transient
errors sleeping `[2, 4]`. -/
theorem retry_on_errors_amended_witness :
    retryOnErrors (fun _ => (Except.ok 7 : Except String Nat)) 3 2 =
      (Except.ok (some 7), []) ∧
    retryOnErrors (fun _ => (Except.error "PermissionDenied" : Except String Nat)) 3 2 =
      (Except.error "PermissionDenied", []) ∧
    ∃ e, (fun _ => (Except.error "500 Internal Server Error" : Except String Nat))
        (3 - 1) = Except.error e ∧
      isTransientError e = true ∧
      retryOnErrors (fun _ => (Except.error "500 Internal Server Error" : Except String Nat)) 3 2 =
        (Except.error e, (List.range' 1 (3 - 1)).map (fun k => 2 ^ k)) := by
  refine ⟨?_, ?_, ?_⟩
  · exact retry_on_errors_amended.1 (fun _ => Except.ok 7) 3 2 7 (by decide) rfl
  · exact retry_on_errors_amended.2.1 (fun _ => Except.error "PermissionDenied") 3 2
      "PermissionDenied" (by decide) rfl (by rfl)
  · exact retry_on_errors_amended.2.2 (fun _ => Except.error "500 Internal Server Error") 3 2
      (by decide) (fun i _ => ⟨"500 Internal Server Error", rfl, by rfl⟩)

/-! ### Re-run service calls and skip-if-exists idempotence (C7)

`generate_combined_grid` (`01_cinematic_preroll.py`, lines 695-816) first
collects the union of panel `references`; when that union is empty (falsy) it
calls `identify_scene_characters`, itself a text-generation service call —
*before* the `path_combined.exists()` check.  The image-generation call is
issued only when the composite file does not exist.
`auto_cast_characters` (lines 373-419) always issues the casting-discovery
text call, then `generate_single_reference` (lines 339-371) returns
immediately — no write, no service call — for every identity already loaded
in `CHARACTER_IMAGES`. -/

/-- The service calls issued by the stages modelled for C7. -/
inductive ServiceCall where
  | imageGen : Nat → ServiceCall
  | identifyScene : Nat → ServiceCall
  | castingDiscovery : ServiceCall
  | refImageGen : String → ServiceCall
deriving DecidableEq, Repr

/-- `generate_combined_grid` for one scene, at the service-call/file level:
`panelRefs` is the union of the panels' `references` lists,
`compositeExists` the `path_combined.exists()` test, `oldComposite` the bytes
currently on disk and `newComposite` the bytes a fresh generation would
produce.  Returns the calls issued and the resulting composite file. -/
def generateCombinedGridRun (panelRefs : List String) (compositeExists : Bool)
    (sceneId : Nat) (oldComposite : Option Nat) (newComposite : Nat) :
    List ServiceCall × Option Nat :=
  ((if panelRefs.isEmpty then [ServiceCall.identifyScene sceneId] else []) ++
      (if compositeExists then [] else [ServiceCall.imageGen sceneId]),
    if compositeExists then oldComposite else some newComposite)

/-- `generate_single_reference`: an identity already present in
`CHARACTER_IMAGES` (loaded from the existing `.png` files on disk) is skipped
before any write or service call. -/
def generateSingleReferenceCalls (registered : List String) (name : String) :
    List ServiceCall :=
  if name ∈ registered then [] else [ServiceCall.refImageGen name]

/-- `auto_cast_characters`: unless casting is disabled, the discovery
text-generation call always runs; `newChars` is its response, each entry then
dispatched to `generate_single_reference`. -/
def autoCastCharactersCalls (enabled : Bool) (registered : List String)
    (newChars : List String) : List ServiceCall :=
  if enabled then
    ServiceCall.castingDiscovery :: newChars.flatMap (generateSingleReferenceCalls registered)
  else []

/-- Counterexample to C7: re-running on identical inputs with all output
files present does NOT perform zero service calls — auto-casting re-issues
its discovery call even when every identity it finds is already registered,
and grid rendering issues the scene-identification call for a scene whose
panels list no references even though its composite exists. -/
theorem rerun_zero_calls_counterexample :
    autoCastCharactersCalls true ["Eckels"] ["Eckels"] = [ServiceCall.castingDiscovery] ∧
    autoCastCharactersCalls true ["Eckels"] ["Eckels"] ≠ [] ∧
    (generateCombinedGridRun [] true 1 (some 42) 99).1 = [ServiceCall.identifyScene 1] ∧
    (generateCombinedGridRun [] true 1 (some 42) 99).1 ≠ [] := by
  refine ⟨rfl, by decide, rfl, by decide⟩

/-- C7 as amended.  On a re-run with outputs present, no *generation* call is
re-issued and the output files are unchanged: a scene whose composite exists
triggers no image-generation call and keeps its composite bytes (and when its
panels do list references, no call at all is issued for it); an identity
already registered triggers no reference-generation call; and auto-casting
whose discovered identities are all registered issues exactly its one
discovery text call and nothing else. -/
theorem rerun_skip_if_exists (sceneId newComposite : Nat) (oldComposite : Option Nat)
    (panelRefs registered newChars : List String) :
    (ServiceCall.imageGen sceneId ∉
      (generateCombinedGridRun panelRefs true sceneId oldComposite newComposite).1) ∧
    ((generateCombinedGridRun panelRefs true sceneId oldComposite newComposite).2 =
      oldComposite) ∧
    (panelRefs ≠ [] →
      (generateCombinedGridRun panelRefs true sceneId oldComposite newComposite).1 = []) ∧
    (∀ name, name ∈ registered → generateSingleReferenceCalls registered name = []) ∧
    ((∀ n, n ∈ newChars → n ∈ registered) →
      autoCastCharactersCalls true registered newChars = [ServiceCall.castingDiscovery]) := by
  refine ⟨?_, rfl, ?_, ?_, ?_⟩
  · unfold generateCombinedGridRun
    by_cases h : panelRefs.isEmpty <;> simp [h]
  · intro h
    unfold generateCombinedGridRun
    rw [if_neg (by simpa [List.isEmpty_iff] using h)]
    simp
  · intro name hmem
    unfold generateSingleReferenceCalls
    rw [if_pos hmem]
  · intro hall
    unfold autoCastCharactersCalls
    rw [if_pos rfl]
    have : newChars.flatMap (generateSingleReferenceCalls registered) = [] := by
      rw [List.flatMap_eq_nil_iff]
      intro n hn
      unfold generateSingleReferenceCalls
      rw [if_pos (hall n hn)]
    rw [this]

/-- Witness for C7 (amended), mirroring the spec's Scenario A re-run: the
catalog already holds `Eckels` and `Time Machine`; a second casting run whose
discovery returns both issues only the discovery call, and a scene with
references and an existing composite issues no call and keeps its bytes. -/
theorem rerun_skip_if_exists_witness :
    (generateCombinedGridRun ["Eckels"] true 1 (some 42) 99).1 = [] ∧
    (generateCombinedGridRun ["Eckels"] true 1 (some 42) 99).2 = some 42 ∧
    generateSingleReferenceCalls ["Eckels", "Time Machine"] "Eckels" = [] ∧
    autoCastCharactersCalls true ["Eckels", "Time Machine"] ["Eckels", "Time Machine"] =
      [ServiceCall.castingDiscovery] := by
  refine ⟨?_, ?_, ?_, ?_⟩
  · exact (rerun_skip_if_exists 1 99 (some 42) ["Eckels"] [] []).2.2.1 (by decide)
  · exact (rerun_skip_if_exists 1 99 (some 42) ["Eckels"] [] []).2.1
  · exact (rerun_skip_if_exists 1 99 (some 42) ["Eckels"] ["Eckels", "Time Machine"]
      []).2.2.2.1 "Eckels" (by decide)
  · exact (rerun_skip_if_exists 1 99 (some 42) ["Eckels"] ["Eckels", "Time Machine"]
      ["Eckels", "Time Machine"]).2.2.2.2 (by decide)

/-! ### Reference-name sanitization (C8)

`generate_single_reference` (`01_cinematic_preroll.py`, lines 347 and 353)
derives the storage key of an identity as
`name.replace("/", "-").replace("'", " ").replace('"', '').replace(" ", "_").lower()`
and writes the `.json`/`.png` catalog pair under that key. -/

/-- One character step of Python's `str.replace(a, b)` for single-character
patterns. -/
def replOne (a b c : Char) : Char :=
  if c = a then b else c

/-- `str.replace(a, b)` for single-character patterns. -/
def replaceChar (a b : Char) (l : List Char) : List Char :=
  l.map (replOne a b)

/-- `str.replace(a, '')` for a single-character pattern: deletion. -/
def removeChar (a : Char) (l : List Char) : List Char :=
  l.filter (fun c => c != a)

/-- The sanitized storage key:
`name.replace("/", "-").replace("'", " ").replace('"', '').replace(" ", "_").lower()`
(ASCII lower-casing, which covers every name the casting schema instructs the
service to emit). -/
def sanitizeName (name : String) : String :=
  String.mk (List.map Char.toLower
    (replaceChar ' ' '_'
      (removeChar '"'
        (replaceChar '\'' ' '
          (replaceChar '/' '-' name.data)))))

/-- The characters the sanitization chain treats specially. -/
def specialChar (c : Char) : Prop :=
  c = '/' ∨ c = '\'' ∨ c = '"' ∨ c = ' '

instance (c : Char) : Decidable (specialChar c) := by
  unfold specialChar
  infer_instance

/-- The whole sanitization chain as a single per-character step. -/
def sanitizeChar (c : Char) : Option Char :=
  let d := replOne '\'' ' ' (replOne '/' '-' c)
  if d = '"' then none else some (Char.toLower (replOne ' ' '_' d))

theorem sanitizeName_eq_filterMap (name : String) :
    sanitizeName name = String.mk (name.data.filterMap sanitizeChar) := by
  unfold sanitizeName
  congr 1
  induction name.data with
  | nil => rfl
  | cons c l ih =>
    simp only [replaceChar, List.map_cons, removeChar, List.filter_cons, List.filterMap_cons]
    by_cases hq : replOne '\'' ' ' (replOne '/' '-' c) = '"'
    · rw [hq]
      simp only [bne_self_eq_false, if_neg]
      rw [show sanitizeChar c = none by simp [sanitizeChar, hq]]
      simpa [replaceChar, removeChar] using ih
    · rw [if_pos (by simpa using hq)]
      rw [show sanitizeChar c = some (Char.toLower (replOne ' ' '_'
        (replOne '\'' ' ' (replOne '/' '-' c)))) by simp [sanitizeChar, hq]]
      simp only [replaceChar, removeChar, List.map_cons, List.cons.injEq]
      refine ⟨trivial, ?_⟩
      simpa [replaceChar, removeChar] using ih

theorem char_toLower_def (c : Char) :
    Char.toLower c = if c.toNat ≥ 65 ∧ c.toNat ≤ 90 then Char.ofNat (c.toNat + 32) else c :=
  rfl

theorem toLower_special_fix (c : Char) (h : specialChar (Char.toLower c)) :
    Char.toLower c = c := by
  by_cases hc : c.toNat ≥ 65 ∧ c.toNat ≤ 90
  · exfalso
    rw [char_toLower_def, if_pos hc] at h
    obtain ⟨h1, h2⟩ := hc
    generalize hm : c.toNat = m at h1 h2 h
    interval_cases m <;> revert h <;> decide
  · rw [char_toLower_def, if_neg hc]

theorem sanitizeChar_of_not_special (c : Char) (h : ¬ specialChar c) :
    sanitizeChar c = some (Char.toLower c) := by
  have h1 : c ≠ '/' := fun he => h (Or.inl he)
  have h2 : c ≠ '\'' := fun he => h (Or.inr (Or.inl he))
  have h3 : c ≠ '"' := fun he => h (Or.inr (Or.inr (Or.inl he)))
  have h4 : c ≠ ' ' := fun he => h (Or.inr (Or.inr (Or.inr he)))
  simp [sanitizeChar, replOne, h1, h2, h3, h4]

theorem sanitizeChar_congr {c c' : Char} (h : Char.toLower c = Char.toLower c') :
    sanitizeChar c = sanitizeChar c' := by
  by_cases hs : specialChar c
  · have hfix : Char.toLower c = c := by
      rcases hs with rfl | rfl | rfl | rfl <;> rfl
    have hc' : c' = c := by
      have : specialChar (Char.toLower c') := by
        rw [← h, hfix]
        exact hs
      have hfix' := toLower_special_fix c' this
      rw [← hfix', ← h, hfix]
    rw [hc']
  · by_cases hs' : specialChar c'
    · have hfix' : Char.toLower c' = c' := by
        rcases hs' with rfl | rfl | rfl | rfl <;> rfl
      have : specialChar (Char.toLower c) := by
        rw [h, hfix']
        exact hs'
      have hfix := toLower_special_fix c this
      exfalso
      apply hs
      rw [← hfix]
      exact this
    · rw [sanitizeChar_of_not_special c hs, sanitizeChar_of_not_special c' hs', h]

theorem filterMap_sanitizeChar_congr :
    ∀ (l l' : List Char), l.map Char.toLower = l'.map Char.toLower →
      l.filterMap sanitizeChar = l'.filterMap sanitizeChar := by
  intro l
  induction l with
  | nil =>
    intro l' h
    cases l' with
    | nil => rfl
    | cons c' t' => simp at h
  | cons c t ih =>
    intro l' h
    cases l' with
    | nil => simp at h
    | cons c' t' =>
      simp only [List.map_cons, List.cons.injEq] at h
      simp only [List.filterMap_cons]
      rw [sanitizeChar_congr h.1, ih t' h.2]

/-- Counterexample to C8, at the claim's own example pair: `"Eckels"`
sanitizes to `"eckels"` but `"eckels "` sanitizes to `"eckels_"` — the
trailing space becomes an underscore instead of being stripped or collapsed,
so the two names are stored under different keys and registering both creates
two separate catalog entries, not one. -/
theorem sanitize_spacing_counterexample :
    sanitizeName "Eckels" = "eckels" ∧ sanitizeName "eckels " = "eckels_" ∧
    sanitizeName "Eckels" ≠ sanitizeName "eckels " := by
  refine ⟨rfl, rfl, by decide⟩

/-- C8 as amended: the sanitization function identifies names that differ
only by ASCII letter case — any two source names with the same
character-wise lower-casing map to the same storage key — but it does *not*
collapse spacing: each space is rewritten to an underscore, so names
differing only in spacing (such as a trailing space) map to distinct storage
keys and produce distinct Catalog entries. -/
theorem sanitize_case_insensitive_amended :
    (∀ s t : String, s.data.map Char.toLower = t.data.map Char.toLower →
      sanitizeName s = sanitizeName t) ∧
    sanitizeName "eckels " ≠ sanitizeName "eckels" := by
  constructor
  · intro s t h
    rw [sanitizeName_eq_filterMap, sanitizeName_eq_filterMap]
    exact congrArg String.mk (filterMap_sanitizeChar_congr _ _ h)
  · decide

/-- Witness for C8 (amended): `"Eckels"` and `"ECKELS"` differ only in letter
case and receive the same storage key. -/
theorem sanitize_case_insensitive_amended_witness :
    sanitizeName "Eckels" = sanitizeName "ECKELS" := by
  exact sanitize_case_insensitive_amended.1 "Eckels" "ECKELS" (by decide)

/-! ### Zero-episode decomposition (C9)

In `analyze_scenes_master` (`01_cinematic_preroll.py`, lines 614-683) the
decomposition result is passed to `auto_cast_characters` *before* any episode
check; `for episode in episodes.get('episodes')` then crashes with an
uncaught `TypeError` when the key is missing (`.get` returns `None`), while
an empty episode list simply yields an empty scene list.  `main` (lines
875-928) only bails out when the analysis result is falsy or lacks the
`scenes` key — `{'scenes': []}` passes the guard, the metadata is written and
the run completes normally. -/

/-- Outcome of the master analysis: an uncaught crash, or the merged scene
corpus (represented by its assigned scene ids). -/
inductive MasterResult where
  | crash
  | scenes : List Nat → MasterResult
deriving DecidableEq, Repr

/-- Control-flow skeleton of `analyze_scenes_master`: the first component
records that auto-casting of the decomposed output always runs (it is invoked
unconditionally before the episode loop); the second is the analysis result,
with the scene ids produced by the sequential numbering pass
(`numberedRefinementTasks`) over the decomposed episodes' scene drafts.
`none` embeds a decomposition response without an `episodes` key, whose
iteration raises an uncaught `TypeError`. -/
def analyzeScenesMasterControl (decompEpisodes : Option (List (List Scene))) :
    Bool × MasterResult :=
  (true,
    match decompEpisodes with
    | none => MasterResult.crash
    | some eps =>
      MasterResult.scenes ((numberedRefinementTasks (List.enumFrom 1 eps)).map Prod.fst))

/-- `main` after the master analysis: `if not data or 'scenes' not in data`
only rejects a falsy/keyless result — any `{'scenes': ...}` dict, including
one with an empty list, passes, the metadata file is written and the listed
scenes are dispatched to the grid stage. -/
def mainAfterMaster : MasterResult → Option (List Nat)
  | MasterResult.crash => none
  | MasterResult.scenes ids => some ids

/-- Counterexample to C9: a decomposition yielding zero episodes does NOT
halt the pipeline — auto-casting of the decomposed output still runs (first
component `true`), the master analysis returns an empty scene list rather
than failing, and `main`'s guard accepts it: the metadata is written
(`some []`) and the run completes normally instead of stopping with a
diagnostic. -/
theorem zero_episodes_no_halt_counterexample :
    analyzeScenesMasterControl (some ([] : List (List Scene))) =
      (true, MasterResult.scenes []) ∧
    mainAfterMaster (MasterResult.scenes []) = some [] := by
  exact ⟨rfl, rfl⟩

/-- C9 as amended: a zero-episode decomposition is not a fatal precondition —
auto-casting still runs on the decomposed output, the master analysis
produces an empty scene corpus, and `main` writes the (empty) metadata and
finishes normally with no scene processed; only a decomposition response
lacking the `episodes` key crashes the run, with an uncaught `TypeError`
rather than a clear diagnostic, and even then only after auto-casting has
already run. -/
theorem zero_episodes_behavior :
    analyzeScenesMasterControl (some ([] : List (List Scene))) =
      (true, MasterResult.scenes []) ∧
    mainAfterMaster (MasterResult.scenes []) = some [] ∧
    (∀ decompEpisodes, (analyzeScenesMasterControl decompEpisodes).1 = true) ∧
    analyzeScenesMasterControl (none : Option (List (List Scene))) =
      (true, MasterResult.crash) ∧
    mainAfterMaster MasterResult.crash = none := by
  exact ⟨rfl, rfl, fun _ => rfl, rfl, rfl⟩

/-! ### Quality Gate re-slice of dual grids (C10)

`slice_grid` (`05_grid_quality_gate.py`, lines 232-270): for a dual-format
composite only the top (START) half is cut — `rows × cols` crops of size
`(w // cols) × ((h // 2) // rows)`, none reaching below the vertical midpoint
— and the crops are matched positionally (`panel_images[pid - 1]`) to the
panels.  `analyze_panel` (lines 307-310) submits the panel's `visual_start`
as the description, falling back to `visual_end` only when `visual_start` is
empty (falsy). -/

/-- One row of `slice_grid`'s single-grid loop, with the
`if len(panels) >= panels_count: break` guard (`count` is the number of crops
collected so far). -/
def sliceGridRowQG (pw ph n r : Nat) : Nat → Nat → Nat → List Box
  | 0, _, _ => []
  | fuel + 1, c, count =>
    if n ≤ count then []
    else { left := c * pw, top := r * ph, right := (c + 1) * pw, bottom := (r + 1) * ph } ::
      sliceGridRowQG pw ph n r fuel (c + 1) (count + 1)

/-- The row loop of `slice_grid`'s single-grid branch. -/
def sliceGridRowsQG (pw ph n cols : Nat) : Nat → Nat → Nat → List Box
  | 0, _, _ => []
  | fuel + 1, r, count =>
    let row := sliceGridRowQG pw ph n r cols 0 count
    row ++ sliceGridRowsQG pw ph n cols fuel (r + 1) (count + row.length)

/-- The dual-grid branch of `slice_grid`: only the START-frame crops — all
`rows × cols` cells of the top half, row-major, with cell size `pw × ph`. -/
def dualStartBoxes (pw ph cols rows : Nat) : List Box :=
  (List.range rows).flatMap (fun r => (List.range cols).map (fun c =>
    { left := c * pw, top := r * ph, right := (c + 1) * pw, bottom := (r + 1) * ph }))

/-- `slice_grid`: the Quality Gate's independent re-slice of a `w × h`
composite.  In dual mode only the START half (top `h // 2` rows) is cut, all
`rows × cols` cells of it; in single mode one full grid is cut with the
trailing cells beyond `panels_count` skipped. -/
def sliceGrid (w h panelsCount : Nat) (isDual : Bool) : List Box :=
  let cols := (gridShape panelsCount).1
  let rows := (gridShape panelsCount).2
  if isDual then
    dualStartBoxes (w / cols) ((h / 2) / rows) cols rows
  else
    sliceGridRowsQG (w / cols) (h / rows) panelsCount cols rows 0 0

theorem dualStartBoxes_length (pw ph cols rows : Nat) :
    (dualStartBoxes pw ph cols rows).length = rows * cols := by
  unfold dualStartBoxes
  rw [List.length_flatMap]
  simp [Function.comp_def, Finset.sum_const]

theorem dualStartBoxes_bounds (pw ph cols rows : Nat) (b : Box)
    (hb : b ∈ dualStartBoxes pw ph cols rows) :
    b.bottom ≤ rows * ph ∧ b.right - b.left = pw ∧ b.bottom - b.top = ph := by
  unfold dualStartBoxes at hb
  rw [List.mem_flatMap] at hb
  obtain ⟨r, hr, hb⟩ := hb
  rw [List.mem_map] at hb
  obtain ⟨c, _, rfl⟩ := hb
  rw [List.mem_range] at hr
  have hmul : (r + 1) * ph ≤ rows * ph := Nat.mul_le_mul_right ph (by omega)
  have hrph : (r + 1) * ph = r * ph + ph := by
    rw [Nat.add_mul, Nat.one_mul]
  have hcpw : (c + 1) * pw = c * pw + pw := by
    rw [Nat.add_mul, Nat.one_mul]
  refine ⟨?_, ?_, ?_⟩ <;> dsimp only <;> omega

/-- The description `analyze_panel` submits for a panel:
`panel_meta.get("visual_start", "")`, replaced by `visual_end` when falsy
(the empty string is the only falsy string). -/
def chooseVisualDesc (p : Panel) : String :=
  if p.visual_start = "" then p.visual_end else p.visual_start

/-- C10. For a dual-format composite the Quality Gate's re-slice returns
exactly `rows × cols` crops, every one of them a `(w/cols) × ((h/2)/rows)`
cell lying entirely at or above the vertical midpoint `h/2` — the END
(bottom) half is never cut, so only start-frame images are scored — and the
description scored against a panel is its `visual_start`, with `visual_end`
used only when `visual_start` is empty. -/
theorem slice_grid_dual_scores_start_half_only (w h n : Nat) :
    (sliceGrid w h n true).length = (gridShape n).2 * (gridShape n).1 ∧
    (∀ b, b ∈ sliceGrid w h n true → b.bottom ≤ h / 2 ∧
      b.right - b.left = w / (gridShape n).1 ∧
      b.bottom - b.top = (h / 2) / (gridShape n).2) ∧
    (∀ p : Panel, (p.visual_start ≠ "" → chooseVisualDesc p = p.visual_start) ∧
      (p.visual_start = "" → chooseVisualDesc p = p.visual_end)) := by
  refine ⟨?_, ?_, ?_⟩
  · exact dualStartBoxes_length _ _ _ _
  · intro b hb
    have hbounds := dualStartBoxes_bounds (w / (gridShape n).1)
      ((h / 2) / (gridShape n).2) (gridShape n).1 (gridShape n).2 b hb
    refine ⟨?_, hbounds.2.1, hbounds.2.2⟩
    calc b.bottom ≤ (gridShape n).2 * ((h / 2) / (gridShape n).2) := hbounds.1
      _ ≤ h / 2 := by
        rw [Nat.mul_comm]
        exact Nat.div_mul_le_self _ _
  · intro p
    unfold chooseVisualDesc
    constructor
    · intro h
      rw [if_neg h]
    · intro h
      rw [if_pos h]

/-- Witness for C10: for a `1200 × 1200` dual composite with 9 panels the
slice has nine `400 × 200` start-half crops, the crop at row 2, column 0 ends
at `y = 600 = 1200/2`; and the description choice at concrete panels. -/
theorem slice_grid_dual_scores_start_half_only_witness :
    ({ left := 0, top := 400, right := 400, bottom := 600 } : Box).bottom ≤ 1200 / 2 ∧
    chooseVisualDesc { basePanel with visual_start := "fog", visual_end := "man" } = "fog" ∧
    chooseVisualDesc { basePanel with visual_start := "", visual_end := "man" } = "man" := by
  refine ⟨?_, ?_, ?_⟩
  · exact ((slice_grid_dual_scores_start_half_only 1200 1200 9).2.1
      { left := 0, top := 400, right := 400, bottom := 600 } (by decide)).1
  · exact ((slice_grid_dual_scores_start_half_only 1200 1200 9).2.2
      { basePanel with visual_start := "fog", visual_end := "man" }).1 (by decide)
  · exact ((slice_grid_dual_scores_start_half_only 1200 1200 9).2.2
      { basePanel with visual_start := "", visual_end := "man" }).2 rfl

end StoryToMovie
